import Mathlib

/-!
Verification of the CI pipeline simulator (`ci/simulator.py`).

The Python program is embedded shallowly:

* `StageStatus`, `StageResult` and `PipelineResult` mirror the dataclasses
  of the same names.  Wall-clock durations (Python floats obtained from
  `time.time()` differences) are modelled as abstract `Nat` ticks; the only
  duration the program ever writes literally is `0` in the skip branch of
  `run_syntax`, which the model preserves exactly.
* `subprocess.run` is abstracted by an `ExecOutcome` oracle: the command
  either completed with a return code and both streams, raised
  `subprocess.TimeoutExpired`, or raised some other exception with a
  message.  `run_command` maps the oracle to the `(returncode, stdout,
  stderr)` triple exactly as the `try/except` in the source does.
* The filesystem seen by `discover_roles` is a tree of `Entry` nodes
  (`name`, `isDir`, `children`); `Path.iterdir` is the `children` list,
  `Path.exists` of `role/molecule/default` is `markerExists`, and a missing
  `roles` directory is the `none` case of `discover_roles` (on a missing
  directory `Path.iterdir` raises `FileNotFoundError`, modelled as
  `Except.error`).
* Thread-pool fan-out of a single stage over many roles is abstracted by a
  function `exec : String → List StageResult` giving the results of each
  individual stage; the `stage == "all"` chaining loop of `run_stage`
  (lines 265-274 of the source) is embedded literally as `run_stage_loop`.
-/

/-- `class StageStatus(Enum)` of the source. -/
inductive StageStatus where
  | pending
  | running
  | passed
  | failed
  | skipped
  deriving DecidableEq, Repr

/-- `StageStatus.value` strings of the Python enum. -/
def StageStatus.value : StageStatus → String
  | .pending => "pending"
  | .running => "running"
  | .passed => "passed"
  | .failed => "failed"
  | .skipped => "skipped"

/-- `@dataclass StageResult` of the source (`duration` as abstract ticks). -/
structure StageResult where
  name : String
  status : StageStatus
  duration : Nat
  output : String
  error : String
  command : String
  role : String
  deriving DecidableEq, Repr

/-- `@dataclass PipelineResult` of the source. -/
structure PipelineResult where
  start_time : String
  end_time : String
  total_duration : Nat
  stages : List StageResult
  passed : Nat
  failed : Nat
  skipped : Nat
  overall_status : String
  deriving DecidableEq, Repr

/-- Possible outcomes of the underlying `subprocess.run` call: normal
completion, `subprocess.TimeoutExpired`, or any other exception whose
`str(e)` is `msg`. -/
inductive ExecOutcome where
  | completed (returncode : Int) (stdout : String) (stderr : String)
  | timedOut
  | raised (msg : String)
  deriving DecidableEq, Repr

/-- `CIPipeline.run_command` (lines 115-138).  `outcome` stands for what the
spawned process would do; the `cwd` and `env` arguments are carried but, as
in the source, do not influence how the outcome is mapped to the returned
triple. -/
def run_command (dryRun : Bool) (command : String) (cwd : Option String)
    (env : Option (List (String × String))) (outcome : ExecOutcome) :
    Int × String × String :=
  if dryRun then
    (0, "[DRY RUN] Would execute: " ++ command, "")
  else
    match outcome with
    | .completed rc out err => (rc, out, err)
    | .timedOut => (1, "", "Command timed out after 600 seconds")
    | .raised msg => (1, "", msg)

/-- The yamllint command built at lines 145-149 (`role.replace('/', '/')`
in the source is the identity). -/
def yamllintCmd (rolesDir : String) (role : Option String) : String :=
  match role with
  | some r => "yamllint -c .yamllint.yml " ++ (rolesDir ++ "/" ++ r)
  | none => "yamllint -c .yamllint.yml roles/"

/-- The ansible-lint command built at lines 155-158. -/
def ansibleLintCmd (rolesDir : String) (role : Option String) : String :=
  match role with
  | some r => "ansible-lint " ++ (rolesDir ++ "/" ++ r)
  | none => "ansible-lint roles/"

/-- `CIPipeline.run_lint` (lines 140-174).  `yamlOutcome` and
`lintOutcome` are the oracles of the two `run_command` calls, `elapsed` the
measured wall-clock duration. -/
def run_lint (dryRun : Bool) (rolesDir : String) (role : Option String)
    (yamlOutcome lintOutcome : ExecOutcome) (elapsed : Nat) : StageResult :=
  let name := match role with
    | some r => "lint:" ++ r
    | none => "lint:all"
  let cmd := yamllintCmd rolesDir role
  let res := run_command dryRun cmd none none yamlOutcome
  let status := if res.1 == 0 then StageStatus.passed else StageStatus.failed
  let lintCmd := ansibleLintCmd rolesDir role
  let lres := run_command dryRun lintCmd none none lintOutcome
  if lres.1 != 0 then
    { name := name, status := StageStatus.failed, duration := elapsed,
      output := res.2.1 ++ "\n\nAnsible-lint output:\n" ++ lres.2.1,
      error := res.2.2 ++ lres.2.2, command := cmd, role := role.getD "all" }
  else
    { name := name, status := status, duration := elapsed,
      output := res.2.1, error := res.2.2, command := cmd,
      role := role.getD "all" }

/-- `CIPipeline.run_syntax` (lines 176-209).  `convergeExists` models the
`converge.exists()` filesystem test. -/
def run_syntax (dryRun : Bool) (rolesDir : String) (role : Option String)
    (convergeExists : Bool) (outcome : ExecOutcome) (elapsed : Nat) :
    StageResult :=
  match role with
  | some r =>
    let name := "syntax:" ++ r
    let convergePath := rolesDir ++ "/" ++ r ++ "/molecule/default/converge.yml"
    if convergeExists then
      let cmd := "ansible-playbook --syntax-check " ++ convergePath
      let res := run_command dryRun cmd none none outcome
      { name := name,
        status := if res.1 == 0 then StageStatus.passed else StageStatus.failed,
        duration := elapsed, output := res.2.1, error := res.2.2,
        command := cmd, role := r }
    else
      { name := name, status := StageStatus.skipped, duration := 0,
        output := "No converge.yml found", error := "", command := "",
        role := r }
  | none =>
    let name := "syntax:all"
    let cmd := "find playbooks -name \x27*.yml\x27 -exec ansible-playbook --syntax-check \x7b\x7d \\;"
    let res := run_command dryRun cmd none none outcome
    { name := name,
      status := if res.1 == 0 then StageStatus.passed else StageStatus.failed,
      duration := elapsed, output := res.2.1, error := res.2.2,
      command := cmd, role := "all" }

/-- `CIPipeline.run_molecule` (lines 211-230). -/
def run_molecule (dryRun : Bool) (rolesDir : String) (role : String)
    (scenario : String) (outcome : ExecOutcome) (elapsed : Nat) :
    StageResult :=
  let name := "molecule:" ++ role ++ ":" ++ scenario
  let rolePath := rolesDir ++ "/" ++ role
  let cmd := "molecule test -s " ++ scenario
  let res := run_command dryRun cmd (some rolePath) none outcome
  { name := name,
    status := if res.1 == 0 then StageStatus.passed else StageStatus.failed,
    duration := elapsed, output := res.2.1, error := res.2.2,
    command := cmd, role := role }

/-- C5: when a command exceeds the 600-second timeout the executor returns
exit code 1, empty stdout and stderr "Command timed out after 600 seconds";
any other invocation failure is likewise caught and returned as exit code 1,
empty stdout and the failure description — `run_command` is total on every
outcome, so no exception ever reaches the caller. -/
theorem run_command_failure_handling (command : String) (cwd : Option String)
    (env : Option (List (String × String))) :
    run_command false command cwd env ExecOutcome.timedOut =
      (1, "", "Command timed out after 600 seconds") ∧
    ∀ msg : String,
      run_command false command cwd env (ExecOutcome.raised msg) = (1, "", msg) :=
  ⟨rfl, fun _ => rfl⟩

/-- C6: with dry-run enabled the executor returns exit code 0, stdout
"[DRY RUN] Would execute: <command>" and empty stderr; the result does not
depend on the `outcome` oracle, i.e. no process is spawned. -/
theorem run_command_dry_run (command : String) (cwd : Option String)
    (env : Option (List (String × String))) (outcome : ExecOutcome) :
    run_command true command cwd env outcome =
      (0, "[DRY RUN] Would execute: " ++ command, "") :=
  rfl

/-- C8: when the unit's scenario directory lacks converge.yml the
syntax-check runner returns a single Skipped result with duration 0,
output "No converge.yml found" and an empty command field; the result does
not depend on the `outcome` oracle, i.e. no command is executed. -/
theorem run_syntax_skips_without_converge (dryRun : Bool) (rolesDir r : String)
    (outcome : ExecOutcome) (elapsed : Nat) :
    run_syntax dryRun rolesDir (some r) false outcome elapsed =
      { name := "syntax:" ++ r, status := StageStatus.skipped, duration := 0,
        output := "No converge.yml found", error := "", command := "",
        role := r } :=
  rfl

/-- The claim that whenever either linter returns non-zero the single
result carries both linters' streams concatenated (and Failed status holds
exactly when a linter is non-zero). -/
def lintClaim (dryRun : Bool) (rolesDir : String) (role : Option String)
    (yamlOutcome lintOutcome : ExecOutcome) (elapsed : Nat) : Prop :=
  ((run_lint dryRun rolesDir role yamlOutcome lintOutcome elapsed).status =
      StageStatus.failed ↔
    ((run_command dryRun (yamllintCmd rolesDir role) none none yamlOutcome).1 ≠ 0 ∨
     (run_command dryRun (ansibleLintCmd rolesDir role) none none lintOutcome).1 ≠ 0)) ∧
  (((run_command dryRun (yamllintCmd rolesDir role) none none yamlOutcome).1 ≠ 0 ∨
    (run_command dryRun (ansibleLintCmd rolesDir role) none none lintOutcome).1 ≠ 0) →
    (run_lint dryRun rolesDir role yamlOutcome lintOutcome elapsed).output =
      (run_command dryRun (yamllintCmd rolesDir role) none none yamlOutcome).2.1 ++
        "\n\nAnsible-lint output:\n" ++
        (run_command dryRun (ansibleLintCmd rolesDir role) none none lintOutcome).2.1 ∧
    (run_lint dryRun rolesDir role yamlOutcome lintOutcome elapsed).error =
      (run_command dryRun (yamllintCmd rolesDir role) none none yamlOutcome).2.2 ++
        (run_command dryRun (ansibleLintCmd rolesDir role) none none lintOutcome).2.2)

/-- C9 counterexample: yamllint fails (rc 1, stdout "Y") while ansible-lint
passes (rc 0, stdout "A"); the result's output is just "Y" — ansible-lint's
streams are not concatenated, refuting the claim at this input. -/
theorem run_lint_concat_cex :
    ¬ lintClaim false "roles" none (ExecOutcome.completed 1 "Y" "E1")
        (ExecOutcome.completed 0 "A" "E2") 0 := by
  unfold lintClaim
  decide

/-- C9 amended: the single result's status is Failed iff either linter
returns non-zero; the two linters' stdout/stderr are concatenated into the
result only when the second linter (ansible-lint) returns non-zero, while
if only the first linter fails the result carries the first linter's
streams alone. -/
theorem run_lint_status_output (dryRun : Bool) (rolesDir : String)
    (role : Option String) (yamlOutcome lintOutcome : ExecOutcome)
    (elapsed : Nat) :
    ((run_lint dryRun rolesDir role yamlOutcome lintOutcome elapsed).status =
        StageStatus.failed ↔
      ((run_command dryRun (yamllintCmd rolesDir role) none none yamlOutcome).1 ≠ 0 ∨
       (run_command dryRun (ansibleLintCmd rolesDir role) none none lintOutcome).1 ≠ 0)) ∧
    ((run_command dryRun (ansibleLintCmd rolesDir role) none none lintOutcome).1 ≠ 0 →
      (run_lint dryRun rolesDir role yamlOutcome lintOutcome elapsed).output =
        (run_command dryRun (yamllintCmd rolesDir role) none none yamlOutcome).2.1 ++
          "\n\nAnsible-lint output:\n" ++
          (run_command dryRun (ansibleLintCmd rolesDir role) none none lintOutcome).2.1 ∧
      (run_lint dryRun rolesDir role yamlOutcome lintOutcome elapsed).error =
        (run_command dryRun (yamllintCmd rolesDir role) none none yamlOutcome).2.2 ++
          (run_command dryRun (ansibleLintCmd rolesDir role) none none lintOutcome).2.2) ∧
    ((run_command dryRun (ansibleLintCmd rolesDir role) none none lintOutcome).1 = 0 →
      (run_lint dryRun rolesDir role yamlOutcome lintOutcome elapsed).output =
        (run_command dryRun (yamllintCmd rolesDir role) none none yamlOutcome).2.1 ∧
      (run_lint dryRun rolesDir role yamlOutcome lintOutcome elapsed).error =
        (run_command dryRun (yamllintCmd rolesDir role) none none yamlOutcome).2.2) := by
  rcases hy : run_command dryRun (yamllintCmd rolesDir role) none none yamlOutcome with
    ⟨rc1, out1, err1⟩
  rcases ha : run_command dryRun (ansibleLintCmd rolesDir role) none none lintOutcome with
    ⟨rc2, out2, err2⟩
  simp only [run_lint, hy, ha]
  by_cases h2 : rc2 = 0 <;> by_cases h1 : rc1 = 0 <;>
    simp [h1, h2]

/-- C9 witness: the amended theorem applied at a concrete input where
ansible-lint fails, showing the concatenated output. -/
theorem run_lint_status_output_witness :
    (run_lint false "roles" none (ExecOutcome.completed 0 "Y" "E1")
        (ExecOutcome.completed 1 "A" "E2") 0).output =
      "Y" ++ "\n\nAnsible-lint output:\n" ++ "A" ∧
    (run_lint false "roles" none (ExecOutcome.completed 0 "Y" "E1")
        (ExecOutcome.completed 1 "A" "E2") 0).status = StageStatus.failed := by
  refine ⟨((run_lint_status_output false "roles" none
      (ExecOutcome.completed 0 "Y" "E1") (ExecOutcome.completed 1 "A" "E2") 0).2.1
      (by decide)).1, ?_⟩
  exact (run_lint_status_output false "roles" none
      (ExecOutcome.completed 0 "Y" "E1") (ExecOutcome.completed 1 "A" "E2") 0).1.mpr
    (Or.inr (by decide))

/-- C10: with dry-run enabled no runner ever produces a Failed result: the
lint and molecule runners always return Passed, and the syntax runner
returns Passed except for the Skipped result when converge.yml is absent. -/
theorem dry_run_never_fails (rolesDir scenario r : String)
    (role : Option String) (o1 o2 o3 o4 o5 : ExecOutcome) (ce : Bool)
    (e1 e2 e3 e4 : Nat) :
    (run_lint true rolesDir role o1 o2 e1).status = StageStatus.passed ∧
    ( run_syntax true rolesDir (some r) ce o3 e2).status =
      (if ce then StageStatus.passed else StageStatus.skipped) ∧
    ( run_syntax true rolesDir none ce o4 e3).status = StageStatus.passed ∧
    (run_molecule true rolesDir r scenario o5 e4).status = StageStatus.passed := by
  refine ⟨?_, ?_, rfl, rfl⟩
  · cases role <;> rfl
  · cases ce <;> rfl

/-- `CIPipeline.print_summary` (lines 294-318): recompute the three counts
from the result list (`sum(1 for r in stages if ...)` is `countP`) and set
`overall_status` to "passed" iff no result failed. -/
def print_summary (res : PipelineResult) : PipelineResult :=
  { res with
    passed := res.stages.countP (fun r => r.status == StageStatus.passed),
    failed := res.stages.countP (fun r => r.status == StageStatus.failed),
    skipped := res.stages.countP (fun r => r.status == StageStatus.skipped),
    overall_status :=
      if res.stages.countP (fun r => r.status == StageStatus.failed) = 0 then
        "passed"
      else "failed" }

/-- A status a completed stage execution can carry: every stage runner
resolves directly to Passed, Failed or Skipped. -/
def terminalStatus (s : StageStatus) : Prop :=
  s = StageStatus.passed ∨ s = StageStatus.failed ∨ s = StageStatus.skipped

instance (s : StageStatus) : Decidable (terminalStatus s) := by
  unfold terminalStatus
  infer_instance

/-- Every result a stage runner constructs has a terminal status. -/
theorem runners_produce_terminal (dryRun : Bool) (rolesDir scenario r : String)
    (role : Option String) (o1 o2 o3 o4 : ExecOutcome) (ce : Bool)
    (e1 e2 e3 : Nat) :
    terminalStatus (run_lint dryRun rolesDir role o1 o2 e1).status ∧
    terminalStatus ( run_syntax dryRun rolesDir role ce o3 e2).status ∧
    terminalStatus (run_molecule dryRun rolesDir r scenario o4 e3).status := by
  refine ⟨?_, ?_, ?_⟩
  · simp only [run_lint, terminalStatus]
    split
    · simp
    · split <;> simp <;> tauto
  · cases role with
    | none =>
      simp only [ run_syntax, terminalStatus]
      split <;> simp
    | some r2 =>
      simp only [ run_syntax, terminalStatus]
      split
      · split <;> simp
      · simp
  · simp only [run_molecule, terminalStatus]
    split <;> simp

private lemma countP_status_partition (l : List StageResult)
    (h : ∀ x ∈ l, terminalStatus x.status) :
    l.countP (fun x => x.status == StageStatus.passed) +
      l.countP (fun x => x.status == StageStatus.failed) +
      l.countP (fun x => x.status == StageStatus.skipped) = l.length := by
  induction l with
  | nil => simp
  | cons a l ih =>
    have ha := h a (List.mem_cons_self a l)
    have hl := ih (fun x hx => h x (List.mem_cons_of_mem a hx))
    simp only [List.countP_cons, List.length_cons]
    rcases ha with ha | ha | ha <;> simp [ha] <;> omega

/-- C4: after summary computation the counts satisfy
passed + failed + skipped = number of stages (all stages held by the
aggregator have a terminal status, as every runner produces one), and
overall_status is "failed" iff failed > 0. -/
theorem print_summary_invariant (res : PipelineResult)
    (h : ∀ x ∈ res.stages, terminalStatus x.status) :
    (print_summary res).passed + (print_summary res).failed +
        (print_summary res).skipped = res.stages.length ∧
    ((print_summary res).overall_status = "failed" ↔
      0 < (print_summary res).failed) := by
  constructor
  · exact countP_status_partition res.stages h
  · simp only [print_summary]
    rcases Nat.eq_zero_or_pos
        (res.stages.countP (fun r => r.status == StageStatus.failed)) with hz | hp
    · simp [hz]
    · have hne : res.stages.countP (fun r => r.status == StageStatus.failed) ≠ 0 :=
        Nat.pos_iff_ne_zero.mp hp
      simp [hne, hp]

/-- C4 witness: the invariant evaluated on a concrete run with one passed
and one failed stage. -/
theorem print_summary_invariant_witness :
    (print_summary
        { start_time := "t0", end_time := "t1", total_duration := 2,
          stages :=
            [{ name := "lint:all", status := StageStatus.passed, duration := 1,
               output := "", error := "", command := "c", role := "all" },
             { name := "syntax:all", status := StageStatus.failed, duration := 1,
               output := "", error := "e", command := "c", role := "all" }],
          passed := 0, failed := 0, skipped := 0,
          overall_status := "pending" }).passed +
      (print_summary
        { start_time := "t0", end_time := "t1", total_duration := 2,
          stages :=
            [{ name := "lint:all", status := StageStatus.passed, duration := 1,
               output := "", error := "", command := "c", role := "all" },
             { name := "syntax:all", status := StageStatus.failed, duration := 1,
               output := "", error := "e", command := "c", role := "all" }],
          passed := 0, failed := 0, skipped := 0,
          overall_status := "pending" }).failed +
      (print_summary
        { start_time := "t0", end_time := "t1", total_duration := 2,
          stages :=
            [{ name := "lint:all", status := StageStatus.passed, duration := 1,
               output := "", error := "", command := "c", role := "all" },
             { name := "syntax:all", status := StageStatus.failed, duration := 1,
               output := "", error := "e", command := "c", role := "all" }],
          passed := 0, failed := 0, skipped := 0,
          overall_status := "pending" }).skipped = 2 :=
  (print_summary_invariant
    { start_time := "t0", end_time := "t1", total_duration := 2,
      stages :=
        [{ name := "lint:all", status := StageStatus.passed, duration := 1,
           output := "", error := "", command := "c", role := "all" },
         { name := "syntax:all", status := StageStatus.failed, duration := 1,
           output := "", error := "e", command := "c", role := "all" }],
      passed := 0, failed := 0, skipped := 0,
      overall_status := "pending" } (by decide)).1

/-- Python string slicing `s[:n]` (by code points, as `String.data`). -/
def pySlice (s : String) (n : Nat) : String :=
  ⟨s.data.take n⟩

/-- One element of the `stages` array of the JSON report (lines 338-349). -/
structure JsonStage where
  name : String
  status : String
  duration : Nat
  role : String
  command : String
  output : String
  error : String
  deriving DecidableEq, Repr

/-- The `report_data` object of the JSON branch of
`CIPipeline.generate_report` (lines 328-350). -/
structure JsonReport where
  start_time : String
  end_time : String
  total_duration : Nat
  passed : Nat
  failed : Nat
  skipped : Nat
  overall_status : String
  stages : List JsonStage
  deriving DecidableEq, Repr

/-- The `stages` array of the JSON report: `s.output[:500] if s.output
else ""` and likewise for `error`. -/
def json_report_stages (stages : List StageResult) : List JsonStage :=
  stages.map fun s =>
    { name := s.name, status := s.status.value, duration := s.duration,
      role := s.role, command := s.command,
      output := if s.output != "" then pySlice s.output 500 else "",
      error := if s.error != "" then pySlice s.error 500 else "" }

/-- The JSON branch of `CIPipeline.generate_report`. -/
def generate_report_json (run : PipelineResult) : JsonReport :=
  { start_time := run.start_time, end_time := run.end_time,
    total_duration := run.total_duration, passed := run.passed,
    failed := run.failed, skipped := run.skipped,
    overall_status := run.overall_status,
    stages := json_report_stages run.stages }

/-- One `<testcase>` element of `CIPipeline._generate_junit_xml`
(lines 378-384); note the `<failure>` child embeds `stage.error` whole. -/
def junit_testcase (s : StageResult) : String :=
  "  <testcase name=\"" ++ s.name ++ "\" time=\"" ++ toString s.duration ++
    "\">\n" ++
  (if s.status == StageStatus.failed then
      "    <failure message=\"Stage failed\">" ++ s.error ++ "</failure>\n"
    else if s.status == StageStatus.skipped then "    <skipped/>\n" else "") ++
  "  </testcase>\n"

/-- `CIPipeline._generate_junit_xml` (lines 369-387). -/
def generate_junit_xml (run : PipelineResult) : String :=
  "<?xml version=\"1.0\" encoding=\"UTF-8\"?>\n<testsuite name=\"ansible-molecule-pipeline\" tests=\"" ++
    toString run.stages.length ++ "\" failures=\"" ++ toString run.failed ++
    "\" time=\"" ++ toString run.total_duration ++ "\">\n" ++
  (run.stages.map junit_testcase).foldl (fun acc t => acc ++ t) "" ++
  "</testsuite>\n"

/-- The strings that the JUnit report embeds from the run's stdout/stderr
data: exactly the untruncated `error` of每 failed stage (see
`junit_testcase`). -/
def junit_embedded_texts (stages : List StageResult) : List String :=
  stages.filterMap fun s =>
    if s.status == StageStatus.failed then some s.error else none

/-- The claim that both structured formats bound every embedded
stdout/stderr string by 500 characters, and the JSON stages array matches
the run's stage count. -/
def reportClaim (run : PipelineResult) : Prop :=
  (∀ e ∈ (generate_report_json run).stages,
    e.output.length ≤ 500 ∧ e.error.length ≤ 500) ∧
  ((generate_report_json run).stages.length = run.stages.length) ∧
  (∀ t ∈ junit_embedded_texts run.stages, t.length ≤ 500)

/-- A 501-character error string. -/
def longErr : String :=
  ⟨List.replicate 501 'a'⟩

/-- A failed stage whose error exceeds the 500-character bound. -/
def longErrStage : StageResult :=
  { name := "m", status := StageStatus.failed, duration := 0, output := "",
    error := longErr, command := "c", role := "x" }

/-- A run holding `longErrStage`. -/
def longErrRun : PipelineResult :=
  { start_time := "t0", end_time := "t1", total_duration := 0,
    stages := [longErrStage], passed := 0, failed := 1, skipped := 0,
    overall_status := "failed" }

set_option maxRecDepth 40000 in
/-- C2 counterexample: for the run holding a failed stage with a
501-character error, the JUnit report embeds that error untruncated (the
`<failure>` element carries all 501 characters), so not every embedded
string is at most 500 characters long. -/
theorem generate_report_truncation_cex :
    ¬ reportClaim longErrRun ∧
    junit_testcase longErrStage =
      "  <testcase name=\"m\" time=\"0\">\n    <failure message=\"Stage failed\">" ++
        longErr ++ "</failure>\n  </testcase>\n" := by
  constructor
  · unfold reportClaim
    decide
  · decide

/-- C2 amended: the JSON report's stages array has exactly as many entries
as the run's stages list and every JSON `output`/`error` field is at most
500 characters; the JUnit report, however, embeds each failed stage's
`error` untruncated. -/
theorem generate_report_shapes (run : PipelineResult) :
    (generate_report_json run).stages.length = run.stages.length ∧
    (∀ e ∈ (generate_report_json run).stages,
      e.output.length ≤ 500 ∧ e.error.length ≤ 500) ∧
    (∀ s ∈ run.stages, s.status = StageStatus.failed →
      s.error ∈ junit_embedded_texts run.stages) := by
  refine ⟨List.length_map _ _, ?_, ?_⟩
  · intro e he
    obtain ⟨s, hs, rfl⟩ :=
      List.mem_map.mp (by simpa [generate_report_json, json_report_stages] using he)
    have hout : (pySlice s.output 500).length ≤ 500 := by
      show (s.output.data.take 500).length ≤ 500
      rw [List.length_take]
      exact min_le_left _ _
    have herr : (pySlice s.error 500).length ≤ 500 := by
      show (s.error.data.take 500).length ≤ 500
      rw [List.length_take]
      exact min_le_left _ _
    constructor
    · dsimp only
      split
      · first
          | exact hout
          | decide
      · first
          | exact hout
          | decide
    · dsimp only
      split
      · first
          | exact herr
          | decide
      · first
          | exact herr
          | decide
  · intro s hs hf
    exact List.mem_filterMap.mpr ⟨s, hs, by simp [hf]⟩

/-- C2 amended witness: on the concrete run the 501-character error is
embedded whole in the JUnit report and the JSON stages array has one
entry. -/
theorem generate_report_shapes_witness :
    longErr ∈ junit_embedded_texts longErrRun.stages ∧
    (generate_report_json longErrRun).stages.length = 1 :=
  ⟨(generate_report_shapes longErrRun).2.2 longErrStage
      (List.mem_cons_self _ _) rfl,
    (generate_report_shapes longErrRun).1⟩

/-- The failure test of the chaining loop:
`any(r.status == StageStatus.FAILED for r in stage_results)`. -/
def anyFailed (results : List StageResult) : Bool :=
  results.any fun r => r.status == StageStatus.failed

/-- The `stage == "all"` loop of `CIPipeline.run_stage` (lines 265-274):
`for s in ["lint", "syntax", "molecule"]` extend the accumulated results
with the stage's results and break as soon as a stage contains a Failed
result.  `exec` abstracts the single-stage dispatch
`self.run_stage(s, role, parallel)` (whose fan-out order over roles is
thread-completion dependent); the chaining below is what lines 265-274
add on top of it. -/
def run_stage_loop (exec : String → List StageResult) :
    List String → List StageResult
  | [] => []
  | s :: rest =>
    let stageResults := exec s
    if anyFailed stageResults then stageResults
    else stageResults ++ run_stage_loop exec rest

/-- `CIPipeline.run_stage` with `stage == "all"`: the fixed stage order is
lint (static-check), syntax (syntax-check), molecule (scenario-test). -/
def run_stage_all (exec : String → List StageResult) : List StageResult :=
  run_stage_loop exec ["lint", "syntax", "molecule"]

/-- C3: for any single-stage results (any unit argument and parallelism),
stage "all" runs lint, then syntax, then molecule in that order; if a
completed stage contains a Failed result, the returned sequence is exactly
the results accumulated up to and including that stage, and the value of
any later stage is never consulted. -/
theorem run_stage_all_short_circuits (exec : String → List StageResult) :
    (run_stage_all exec =
      (if anyFailed (exec "lint") then exec "lint"
       else if anyFailed (exec "syntax") then exec "lint" ++ exec "syntax"
       else exec "lint" ++ exec "syntax" ++ exec "molecule")) ∧
    (anyFailed (exec "lint") = true → run_stage_all exec = exec "lint") ∧
    (anyFailed (exec "lint") = false → anyFailed (exec "syntax") = true →
      run_stage_all exec = exec "lint" ++ exec "syntax") ∧
    (anyFailed (exec "lint") = false → anyFailed (exec "syntax") = false →
      run_stage_all exec = exec "lint" ++ exec "syntax" ++ exec "molecule") := by
  have hloop : run_stage_all exec =
      (if anyFailed (exec "lint") then exec "lint"
       else if anyFailed (exec "syntax") then exec "lint" ++ exec "syntax"
       else exec "lint" ++ exec "syntax" ++ exec "molecule") := by
    simp only [run_stage_all, run_stage_loop]
    by_cases h1 : anyFailed (exec "lint") <;>
      by_cases h2 : anyFailed (exec "syntax") <;>
        by_cases h3 : anyFailed (exec "molecule") <;>
          simp [h1, h2, h3, List.append_assoc]
  refine ⟨hloop, ?_, ?_, ?_⟩
  · intro h1
    rw [hloop, if_pos h1]
  · intro h1 h2
    rw [hloop, if_neg (by simp [h1]), if_pos h2]
  · intro h1 h2
    rw [hloop, if_neg (by simp [h1]), if_neg (by simp [h2]), List.append_assoc]

/-- A concrete single-stage dispatch where the lint stage contains a
failure. -/
def execLintFails : String → List StageResult := fun s =>
  if s = "lint" then
    [{ name := "lint:all", status := StageStatus.failed, duration := 1,
       output := "", error := "lint error", command := "c", role := "all" }]
  else
    [{ name := s, status := StageStatus.passed, duration := 1,
       output := "", error := "", command := "c", role := "all" }]

/-- C3 witness: with a failing lint stage, stage "all" returns exactly the
lint results; syntax and molecule results never appear. -/
theorem run_stage_all_short_circuits_witness :
    run_stage_all execLintFails = execLintFails "lint" :=
  (run_stage_all_short_circuits execLintFails).2.1 (by decide)

/-- A filesystem node as `discover_roles` observes it: a name, whether it
is a directory, and (for directories) the entries `Path.iterdir` yields. -/
inductive Entry where
  | mk (name : String) (isDir : Bool) (children : List Entry)

/-- The node's file name. -/
def Entry.name : Entry → String
  | .mk n _ _ => n

/-- `Path.is_dir()`. -/
def Entry.isDir : Entry → Bool
  | .mk _ d _ => d

/-- `Path.iterdir()`. -/
def Entry.children : Entry → List Entry
  | .mk _ _ c => c

/-- Look a path component up among a directory's entries. -/
def findChild (entries : List Entry) (n : String) : Option Entry :=
  entries.find? fun c => c.name == n

/-- `(role / "molecule" / "default").exists()`: the node has a child named
"molecule" that itself has a child named "default". -/
def markerExists (e : Entry) : Bool :=
  match findChild e.children "molecule" with
  | some m => (findChild m.children "default").isSome
  | none => false

/-- Python `name.startswith('.')`. -/
def startsWithDot (s : String) : Bool :=
  match s.data with
  | [] => false
  | c :: _ => c == '.'

/-- The inner `for subrole in role.iterdir()` body (lines 108-112). -/
def scanSubrole (catName roleName : String) (sub : Entry) : List String :=
  if sub.isDir && markerExists sub then
    [catName ++ "/" ++ (roleName ++ "/" ++ sub.name)]
  else []

/-- The `for role in category.iterdir()` body (lines 101-112). -/
def scanRole (catName : String) (role : Entry) : List String :=
  if role.isDir then
    if markerExists role then [catName ++ "/" ++ role.name]
    else role.children.flatMap (scanSubrole catName role.name)
  else []

/-- The `for category in self.roles_dir.iterdir()` body (lines 99-112). -/
def scanCategory (cat : Entry) : List String :=
  if cat.isDir && !startsWithDot cat.name then
    cat.children.flatMap (scanRole cat.name)
  else []

/-- The list `discover_roles` builds and sorts (lines 96-113); Python's
`sorted` on strings is a lexicographic merge sort. -/
def discoverList (rolesDir : Entry) : List String :=
  (rolesDir.children.flatMap scanCategory).mergeSort fun a b => decide (a ≤ b)

/-- `CIPipeline.discover_roles` including the filesystem access: when the
roles directory does not exist, `Path.iterdir` raises `FileNotFoundError`
(modelled as `Except.error`); otherwise the sorted list is returned. -/
def discover_roles (rolesDir : Option Entry) : Except String (List String) :=
  match rolesDir with
  | none => Except.error "FileNotFoundError"
  | some d => Except.ok (discoverList d)

/-- No unit (role or subrole, at the two depths discovery inspects)
contains the marker path `molecule/default`. -/
def NoMarkers (d : Entry) : Prop :=
  ∀ cat ∈ d.children, ∀ role ∈ cat.children,
    markerExists role = false ∧ ∀ sub ∈ role.children, markerExists sub = false

/-- C1 counterexample: when the roles directory does not exist,
`discover_roles` raises `FileNotFoundError` (from `Path.iterdir`) instead
of returning an empty sequence. -/
theorem discover_roles_missing_root_cex :
    discover_roles none = Except.error "FileNotFoundError" ∧
    discover_roles none ≠ Except.ok [] :=
  ⟨rfl, by simp [discover_roles]⟩

/-- C1 amended: whenever the roles directory exists, `discover_roles`
returns a value and never raises — in particular the empty list when no
unit contains the marker path ("no results found" is not an error) — but a
missing roles directory raises `FileNotFoundError`. -/
theorem discover_roles_error_handling :
    (∀ d : Entry, ∃ l, discover_roles (some d) = Except.ok l) ∧
    (∀ d : Entry, NoMarkers d → discover_roles (some d) = Except.ok []) ∧
    discover_roles none = Except.error "FileNotFoundError" := by
  refine ⟨fun d => ⟨discoverList d, rfl⟩, ?_, rfl⟩
  intro d h
  have hflat : d.children.flatMap scanCategory = [] := by
    rw [List.flatMap_eq_nil_iff]
    intro cat hcat
    unfold scanCategory
    split
    · rw [List.flatMap_eq_nil_iff]
      intro role hrole
      obtain ⟨hm, hsub⟩ := h cat hcat role hrole
      have hsubflat :
          role.children.flatMap (scanSubrole cat.name role.name) = [] := by
        rw [List.flatMap_eq_nil_iff]
        intro sub hs
        simp [scanSubrole, hsub sub hs]
      simp [scanRole, hm, hsubflat]
    · rfl
  simp [discover_roles, discoverList, hflat]

/-- An existing roles directory with no entries at all. -/
def emptyRolesDir : Entry :=
  Entry.mk "roles" true []

/-- C1 amended witness: the empty roles directory yields `ok []`. -/
theorem discover_roles_error_handling_witness :
    discover_roles (some emptyRolesDir) = Except.ok [] :=
  discover_roles_error_handling.2.1 emptyRolesDir (fun _ h => nomatch h)

/-- First path segment of an identifier: characters before the first
slash. -/
def firstSeg (s : String) : String :=
  ⟨s.data.takeWhile fun c => !(c == '/')⟩

/-- What follows the first slash of an identifier. -/
def restSeg (s : String) : String :=
  ⟨(s.data.dropWhile fun c => !(c == '/')).tail⟩

/-- Second path segment. -/
def secondSeg (s : String) : String :=
  firstSeg (restSeg s)

/-- What follows the second slash. -/
def thirdSeg (s : String) : String :=
  restSeg (restSeg s)

private lemma takeWhile_append_slash (l m : List Char) (h : '/' ∉ l) :
    (l ++ '/' :: m).takeWhile (fun c => !(c == '/')) = l := by
  induction l with
  | nil => simp [List.takeWhile_cons]
  | cons c cs ih =>
    simp only [List.mem_cons, not_or] at h
    have hc : (c == '/') = false := by
      simp [beq_eq_false_iff_ne]
      exact fun hcc => h.1 hcc.symm
    simp [List.takeWhile_cons, hc, ih h.2]

private lemma dropWhile_append_slash (l m : List Char) (h : '/' ∉ l) :
    (l ++ '/' :: m).dropWhile (fun c => !(c == '/')) = '/' :: m := by
  induction l with
  | nil => simp [List.dropWhile_cons]
  | cons c cs ih =>
    simp only [List.mem_cons, not_or] at h
    have hc : (c == '/') = false := by
      simp [beq_eq_false_iff_ne]
      exact fun hcc => h.1 hcc.symm
    simp [List.dropWhile_cons, hc, ih h.2]

private lemma takeWhile_no_slash (l : List Char) (h : '/' ∉ l) :
    l.takeWhile (fun c => !(c == '/')) = l := by
  induction l with
  | nil => simp
  | cons c cs ih =>
    simp only [List.mem_cons, not_or] at h
    have hc : (c == '/') = false := by
      simp [beq_eq_false_iff_ne]
      exact fun hcc => h.1 hcc.symm
    simp [List.takeWhile_cons, hc, ih h.2]

private lemma data_slash_join (a b : String) :
    (a ++ "/" ++ b).data = a.data ++ '/' :: b.data := by
  simp [String.data_append]

private lemma firstSeg_join (a b : String) (h : '/' ∉ a.data) :
    firstSeg (a ++ "/" ++ b) = a := by
  unfold firstSeg
  rw [data_slash_join, takeWhile_append_slash _ _ h]

private lemma restSeg_join (a b : String) (h : '/' ∉ a.data) :
    restSeg (a ++ "/" ++ b) = b := by
  unfold restSeg
  rw [data_slash_join, dropWhile_append_slash _ _ h]
  rfl

private lemma firstSeg_no_slash (a : String) (h : '/' ∉ a.data) :
    firstSeg a = a := by
  unfold firstSeg
  rw [takeWhile_no_slash _ h]

private lemma mem_scanSubrole {c r : String} {sub : Entry} {s : String}
    (h : s ∈ scanSubrole c r sub) :
    s = c ++ "/" ++ (r ++ "/" ++ sub.name) ∧ sub.isDir = true ∧
      markerExists sub = true := by
  unfold scanSubrole at h
  split at h
  case isTrue hc =>
    rw [Bool.and_eq_true] at hc
    rw [List.mem_singleton] at h
    exact ⟨h, hc.1, hc.2⟩
  case isFalse hc =>
    exact absurd h (List.not_mem_nil s)

private lemma mem_scanRole {c : String} {role : Entry} {s : String}
    (h : s ∈ scanRole c role) :
    role.isDir = true ∧
      ((markerExists role = true ∧ s = c ++ "/" ++ role.name) ∨
        (markerExists role = false ∧
          ∃ sub ∈ role.children, sub.isDir = true ∧ markerExists sub = true ∧
            s = c ++ "/" ++ (role.name ++ "/" ++ sub.name))) := by
  unfold scanRole at h
  split at h
  case isTrue hdir =>
    split at h
    case isTrue hm =>
      rw [List.mem_singleton] at h
      exact ⟨hdir, Or.inl ⟨hm, h⟩⟩
    case isFalse hm =>
      obtain ⟨sub, hsub, hs⟩ := List.mem_flatMap.mp h
      obtain ⟨hseq, hsd, hsm⟩ := mem_scanSubrole hs
      refine ⟨hdir, Or.inr ⟨?_, sub, hsub, hsd, hsm, hseq⟩⟩
      exact Bool.eq_false_iff.mpr hm
  case isFalse hdir =>
    exact absurd h (List.not_mem_nil s)

private lemma mem_scanCategory {cat : Entry} {s : String}
    (h : s ∈ scanCategory cat) :
    cat.isDir = true ∧ startsWithDot cat.name = false ∧
      s ∈ cat.children.flatMap (scanRole cat.name) := by
  unfold scanCategory at h
  split at h
  case isTrue hc =>
    rw [Bool.and_eq_true, Bool.not_eq_true'] at hc
    exact ⟨hc.1, hc.2, h⟩
  case isFalse hc =>
    exact absurd h (List.not_mem_nil s)

private lemma scanRole_firstSeg {c : String} {role : Entry} {s : String}
    (hc : '/' ∉ c.data) (h : s ∈ scanRole c role) : firstSeg s = c := by
  obtain ⟨-, hcase⟩ := mem_scanRole h
  rcases hcase with ⟨-, rfl⟩ | ⟨-, sub, -, -, -, rfl⟩ <;>
    exact firstSeg_join _ _ hc

private lemma scanRole_secondSeg {c : String} {role : Entry} {s : String}
    (hc : '/' ∉ c.data) (hr : '/' ∉ role.name.data)
    (h : s ∈ scanRole c role) : secondSeg s = role.name := by
  obtain ⟨-, hcase⟩ := mem_scanRole h
  rcases hcase with ⟨-, rfl⟩ | ⟨-, sub, -, -, -, rfl⟩ <;>
    unfold secondSeg <;> rw [restSeg_join _ _ hc]
  · exact firstSeg_no_slash _ hr
  · exact firstSeg_join _ _ hr

private lemma scanSubrole_thirdSeg {c r : String} {sub : Entry} {s : String}
    (hc : '/' ∉ c.data) (hr : '/' ∉ r.data)
    (h : s ∈ scanSubrole c r sub) : thirdSeg s = sub.name := by
  obtain ⟨rfl, -, -⟩ := mem_scanSubrole h
  unfold thirdSeg
  rw [restSeg_join _ _ hc, restSeg_join _ _ hr]

private lemma scanCategory_firstSeg {cat : Entry} {s : String}
    (hd : '/' ∉ cat.name.data) (h : s ∈ scanCategory cat) :
    firstSeg s = cat.name := by
  obtain ⟨-, -, hmem⟩ := mem_scanCategory h
  obtain ⟨role, -, hs⟩ := List.mem_flatMap.mp hmem
  exact scanRole_firstSeg hd hs

/-- Filesystem sanity at the depths discovery scans: entry names inside a
directory are distinct (as in any real directory) and contain no path
separator. -/
def WF3 (root : Entry) : Prop :=
  (root.children.map Entry.name).Nodup ∧
  ∀ cat ∈ root.children, '/' ∉ cat.name.data ∧
    (cat.children.map Entry.name).Nodup ∧
    ∀ role ∈ cat.children, '/' ∉ role.name.data ∧
      (role.children.map Entry.name).Nodup

private lemma scanRole_nodup {c : String} (role : Entry)
    (hc : '/' ∉ c.data) (hr : '/' ∉ role.name.data)
    (hn : (role.children.map Entry.name).Nodup) :
    (scanRole c role).Nodup := by
  unfold scanRole
  split
  · split
    · simp
    · rw [List.nodup_flatMap]
      constructor
      · intro sub _
        unfold scanSubrole
        split <;> simp
      · have hp : List.Pairwise (fun a b : Entry => a.name ≠ b.name)
            role.children := List.pairwise_map.mp hn
        refine hp.imp ?_
        intro a b hab
        rw [Function.onFun_apply]
        intro s hsa hsb
        exact hab ((scanSubrole_thirdSeg hc hr hsa).symm.trans
          (scanSubrole_thirdSeg hc hr hsb))
  · simp

private lemma scanCategory_nodup (cat : Entry)
    (hd : '/' ∉ cat.name.data)
    (hn : (cat.children.map Entry.name).Nodup)
    (hroles : ∀ role ∈ cat.children, '/' ∉ role.name.data ∧
      (role.children.map Entry.name).Nodup) :
    (scanCategory cat).Nodup := by
  unfold scanCategory
  split
  · rw [List.nodup_flatMap]
    constructor
    · intro role hrole
      exact scanRole_nodup role hd (hroles role hrole).1 (hroles role hrole).2
    · have hp : List.Pairwise (fun a b : Entry => a.name ≠ b.name)
          cat.children := List.pairwise_map.mp hn
      refine List.Pairwise.imp_of_mem ?_ hp
      intro a b ha hb hab
      rw [Function.onFun_apply]
      intro s hsa hsb
      exact hab ((scanRole_secondSeg hd (hroles a ha).1 hsa).symm.trans
        (scanRole_secondSeg hd (hroles b hb).1 hsb))
  · simp

private lemma discover_pre_nodup (root : Entry) (hwf : WF3 root) :
    (root.children.flatMap scanCategory).Nodup := by
  obtain ⟨hn, hcats⟩ := hwf
  rw [List.nodup_flatMap]
  constructor
  · intro cat hcat
    obtain ⟨hd, hcn, hroles⟩ := hcats cat hcat
    exact scanCategory_nodup cat hd hcn hroles
  · have hp : List.Pairwise (fun a b : Entry => a.name ≠ b.name)
        root.children := List.pairwise_map.mp hn
    refine List.Pairwise.imp_of_mem ?_ hp
    intro a b ha hb hab
    rw [Function.onFun_apply]
    intro s hsa hsb
    exact hab ((scanCategory_firstSeg (hcats a ha).1 hsa).symm.trans
      (scanCategory_firstSeg (hcats b hb).1 hsb))

private lemma discoverList_sorted (root : Entry) :
    (discoverList root).Sorted (· ≤ ·) := by
  have h := @List.sorted_mergeSort String
    (fun a b : String => decide (a ≤ b))
    (fun a b c hab hbc =>
      decide_eq_true (le_trans (of_decide_eq_true hab) (of_decide_eq_true hbc)))
    (fun a b => by
      rcases le_total a b with h | h <;> simp [h])
    (root.children.flatMap scanCategory)
  exact h.imp fun hab => of_decide_eq_true hab

private lemma discoverList_nodup (root : Entry) (hwf : WF3 root) :
    (discoverList root).Nodup := by
  have h := discover_pre_nodup root hwf
  exact ((List.mergeSort_perm (root.children.flatMap scanCategory)
    (fun a b => decide (a ≤ b))).nodup_iff).mpr h

/-- `discover` records `category/unit` for a unit directory that contains
the marker path `molecule/default`. -/
def RecordsUnit (root : Entry) (s : String) : Prop :=
  ∃ cat ∈ root.children, cat.isDir = true ∧ startsWithDot cat.name = false ∧
    ∃ role ∈ cat.children, role.isDir = true ∧ markerExists role = true ∧
      s = cat.name ++ "/" ++ role.name

/-- `discover` records `category/unit/subunit` for a subunit bearing the
marker when its parent unit lacks it (and never deeper). -/
def RecordsSubunit (root : Entry) (s : String) : Prop :=
  ∃ cat ∈ root.children, cat.isDir = true ∧ startsWithDot cat.name = false ∧
    ∃ role ∈ cat.children, role.isDir = true ∧ markerExists role = false ∧
      ∃ sub ∈ role.children, sub.isDir = true ∧ markerExists sub = true ∧
        s = cat.name ++ "/" ++ (role.name ++ "/" ++ sub.name)

private lemma mem_discoverList (root : Entry) (s : String) :
    s ∈ discoverList root ↔ RecordsUnit root s ∨ RecordsSubunit root s := by
  unfold discoverList
  rw [List.mem_mergeSort, List.mem_flatMap]
  constructor
  · rintro ⟨cat, hcat, hs⟩
    obtain ⟨hdir, hdot, hmem⟩ := mem_scanCategory hs
    obtain ⟨role, hrole, hsr⟩ := List.mem_flatMap.mp hmem
    obtain ⟨hrd, hcase⟩ := mem_scanRole hsr
    rcases hcase with ⟨hm, rfl⟩ | ⟨hm, sub, hsub, hsd, hsm, rfl⟩
    · exact Or.inl ⟨cat, hcat, hdir, hdot, role, hrole, hrd, hm, rfl⟩
    · exact Or.inr ⟨cat, hcat, hdir, hdot, role, hrole, hrd, hm, sub, hsub,
        hsd, hsm, rfl⟩
  · rintro (⟨cat, hcat, hdir, hdot, role, hrole, hrd, hm, rfl⟩ |
      ⟨cat, hcat, hdir, hdot, role, hrole, hrd, hm, sub, hsub, hsd, hsm, rfl⟩)
    · refine ⟨cat, hcat, ?_⟩
      unfold scanCategory
      rw [if_pos (by simp [hdir, hdot])]
      refine List.mem_flatMap.mpr ⟨role, hrole, ?_⟩
      unfold scanRole
      rw [if_pos hrd, if_pos hm]
      exact List.mem_singleton.mpr rfl
    · refine ⟨cat, hcat, ?_⟩
      unfold scanCategory
      rw [if_pos (by simp [hdir, hdot])]
      refine List.mem_flatMap.mpr ⟨role, hrole, ?_⟩
      unfold scanRole
      rw [if_pos hrd, if_neg (by simp [hm])]
      refine List.mem_flatMap.mpr ⟨sub, hsub, ?_⟩
      unfold scanSubrole
      rw [if_pos (by simp [hsd, hsm])]
      exact List.mem_singleton.mpr rfl

/-- The spec's scenario tree: unit `net/ssh` without the marker, subunit
`net/ssh/hardened` with it. -/
def exampleTree : Entry :=
  Entry.mk "roles" true
    [Entry.mk "net" true
      [Entry.mk "ssh" true
        [Entry.mk "hardened" true
          [Entry.mk "molecule" true [Entry.mk "default" true []]]]]]

private lemma discoverList_example :
    discoverList exampleTree = ["net/ssh/hardened"] := by
  unfold discoverList
  have h : exampleTree.children.flatMap scanCategory = ["net/ssh/hardened"] := by
    decide
  rw [h]
  exact List.perm_singleton.mp (List.mergeSort_perm _ _)

/-- C7: on any sane directory tree (distinct, separator-free entry names),
discovery records `category/unit` exactly for marker-bearing units,
descends one level further only for units lacking the marker (recording
`category/unit/subunit`, never deeper), and returns a lexicographically
sorted, duplicate-free sequence; the spec's `net/ssh` / `net/ssh/hardened`
scenario yields exactly ["net/ssh/hardened"]. -/
theorem discover_roles_characterization (root : Entry) (hwf : WF3 root) :
    (discoverList root).Sorted (· ≤ ·) ∧
    (discoverList root).Nodup ∧
    (∀ s, s ∈ discoverList root ↔ RecordsUnit root s ∨ RecordsSubunit root s) ∧
    discoverList exampleTree = ["net/ssh/hardened"] :=
  ⟨discoverList_sorted root, discoverList_nodup root hwf,
    fun s => mem_discoverList root s, discoverList_example⟩

/-- C7 witness: the characterization applied to the scenario tree. -/
theorem discover_roles_characterization_witness :
    discoverList exampleTree = ["net/ssh/hardened"] ∧
    (discoverList exampleTree).Nodup ∧
    "net/ssh/hardened" ∈ discoverList exampleTree :=
  ⟨(discover_roles_characterization exampleTree
      (by unfold WF3; decide)).2.2.2,
   (discover_roles_characterization exampleTree
      (by unfold WF3; decide)).2.1,
   ((discover_roles_characterization exampleTree
      (by unfold WF3; decide)).2.2.1 "net/ssh/hardened").mpr
     (Or.inr ⟨Entry.mk "net" true
        [Entry.mk "ssh" true
          [Entry.mk "hardened" true
            [Entry.mk "molecule" true [Entry.mk "default" true []]]]],
        List.mem_singleton.mpr rfl, rfl, rfl,
        Entry.mk "ssh" true
          [Entry.mk "hardened" true
            [Entry.mk "molecule" true [Entry.mk "default" true []]]],
        List.mem_singleton.mpr rfl, rfl, rfl,
        Entry.mk "hardened" true
          [Entry.mk "molecule" true [Entry.mk "default" true []]],
        List.mem_singleton.mpr rfl, rfl, rfl, rfl⟩)⟩
